import Mathlib

/-!
Verification of the per-user single-flight video-download lifecycle implemented
in `src/dope247.py` (class `VideoDownloaderBot`).  The Python code is embedded
shallowly: the pure URL validator becomes a Lean function on strings, the
adapter calls (extraction engine, transcoding subprocess, chat transport) are
modelled by an environment record describing their outcome for one request, and
the lifecycle (`handle_message` / `_process_video` / `_send_video`) becomes a
pure function from that environment and the current admission-gate state to the
resulting state, the list of user-visible replies, and a trace of the externally
observable events (which adapters were invoked, what caption and file were
handed to the transport, whether the scoped temporary directory was removed).
-/

namespace Dope247

/-- The compile-time size limit: `MAX_FILE_SIZE = 50 * 1024 * 1024` (50 MiB). -/
def MAX_FILE_SIZE : Nat := 50 * 1024 * 1024

/-- The compile-time allow-list `SUPPORTED_DOMAINS` of domain substrings. -/
def SUPPORTED_DOMAINS : List String :=
  ["vimeo.com", "instagram.com", "tiktok.com", "dailymotion.com", "facebook.com", "xvideos.com"]

/-- Python's `text.startswith(p)` on code-point lists. -/
def startsWithChars : List Char → List Char → Bool
  | [], _ => true
  | _ :: _, [] => false
  | p :: ps, c :: cs => p == c && startsWithChars ps cs

/-- Python's substring test `needle in hay` on code-point lists. -/
def containsSub (needle : List Char) : List Char → Bool
  | [] => startsWithChars needle []
  | c :: rest => startsWithChars needle (c :: rest) || containsSub needle rest

/-- Embedding of `VideoDownloaderBot._is_valid_url` (src/dope247.py line 77):
the text starts with `http://` or `https://` (Python `startswith` with a tuple)
and contains some allow-listed domain as a substring (Python `in`). -/
def is_valid_url (text : String) : Bool :=
  (startsWithChars "http://".toList text.toList
      || startsWithChars "https://".toList text.toList)
    && SUPPORTED_DOMAINS.any (fun d => containsSub d.toList text.toList)

theorem startsWithChars_iff (p l : List Char) :
    startsWithChars p l = true ↔ p <+: l := by
  induction p generalizing l with
  | nil => simp [startsWithChars]
  | cons a ps ih =>
    cases l with
    | nil => simp [startsWithChars]
    | cons c cs => simp [startsWithChars, ih, List.cons_prefix_cons]

theorem containsSub_iff (n h : List Char) :
    containsSub n h = true ↔ n <:+: h := by
  induction h with
  | nil => simp [containsSub, startsWithChars_iff]
  | cons c cs ih =>
    simp [containsSub, startsWithChars_iff, ih, List.infix_cons_iff]

/-- C4: `_is_valid_url text` is true exactly when `text` starts with `http://`
or `https://` and some allow-listed domain occurs as a (code-point) substring
anywhere in `text`, including inside a query string.  The Lean embedding is a
pure function, matching the no-side-effects part of the claim. -/
theorem is_valid_url_spec (text : String) :
    is_valid_url text = true ↔
      (("http://".toList <+: text.toList) ∨ ("https://".toList <+: text.toList))
        ∧ ∃ d ∈ SUPPORTED_DOMAINS, d.toList <:+: text.toList := by
  simp [is_valid_url, startsWithChars_iff, containsSub_iff]

/-- Outcome of one call to `_download_video` (the yt-dlp extraction adapter,
src/dope247.py lines 99-114): the engine raises `yt_dlp.utils.DownloadError`
carrying a message, raises some other exception, or succeeds with the video
title, the final local file path, and the file size in bytes (the size that
`os.path.getsize` reports at line 84). -/
inductive ExtractOutcome where
  | downloadError (msg : String)
  | fault (msg : String)
  | ok (title : String) (path : String) (size : Nat)
  deriving Repr, DecidableEq

/-- Outcome of one call to `_compress_video` (the ffmpeg subprocess,
src/dope247.py lines 116-126): `subprocess.run(check=True)` raises on non-zero
exit, otherwise the compressed output file has the given size in bytes. -/
inductive CompressOutcome where
  | fault (msg : String)
  | ok (size : Nat)
  deriving Repr, DecidableEq

/-- The behaviour of the three external adapters for one request: what
extraction does, what compression would do if invoked, and whether the chat
transport's `bot.send_video` call succeeds or raises (with a message). -/
structure Env where
  extract : ExtractOutcome
  compress : CompressOutcome
  send : Except String Unit
  deriving Repr

/-- Python slicing `caption[:1024]` at src/dope247.py line 134, on code points. -/
def captionSlice (s : String) : String := (s.toList.take 1024).asString

/-- Observable result of `_send_video` (src/dope247.py lines 128-138):
`propagated` is the exception the caller sees (the bare `except Exception`
means it is always `none`), `logged` is the `logger.error` line emitted on
failure, and `sentCaption` is the caption actually handed to the transport
after the `[:1024]` truncation. -/
structure SendResult where
  propagated : Option String
  logged : Option String
  sentCaption : String
  deriving Repr, DecidableEq

/-- Embedding of `_send_video`: the transport call is attempted with the
truncated caption; any failure is caught and logged, never re-raised. -/
def send_video (transport : Except String Unit) (caption : String) : SendResult :=
  { propagated := none
  , logged := match transport with
      | Except.ok _ => none
      | Except.error e => some ("Send failed: " ++ e)
  , sentCaption := captionSlice caption }

/-- Trace of the externally observable events of one `_process_video` run. -/
structure Trace where
  extractionInvoked : Bool
  compressionInvoked : Bool
  deliveryInvoked : Bool
  deliveredPath : Option String
  deliveredCaption : Option String
  sendLog : Option String
  tempDirRemoved : Bool
  deriving Repr, DecidableEq

/-- Trace of a request that never entered `_process_video`. -/
def emptyTrace : Trace :=
  { extractionInvoked := false, compressionInvoked := false, deliveryInvoked := false
  , deliveredPath := none, deliveredCaption := none, sendLog := none
  , tempDirRemoved := false }

/-- Body of the `try` block inside the `with tempfile.TemporaryDirectory()`
statement of `_process_video` (src/dope247.py lines 81-97).  The first
component is the control-flow outcome seen by `handle_message`: `Except.error`
carries the message of the exception that propagates out (the
`except yt_dlp.utils.DownloadError` clause replaces a download error with
`ValueError("Failed to download. URL might be invalid.")`; the oversize
`ValueError` and any compression fault propagate unchanged).  The trace records
the body's events; `tempDirRemoved` is still false here because the directory
exists while the body runs. -/
def process_body (env : Env) (temp_dir : String) : Except String Unit × Trace :=
  match env.extract with
  | ExtractOutcome.downloadError _ =>
      (Except.error "Failed to download. URL might be invalid.",
       { emptyTrace with extractionInvoked := true })
  | ExtractOutcome.fault msg =>
      (Except.error msg, { emptyTrace with extractionInvoked := true })
  | ExtractOutcome.ok title path size =>
      if size > MAX_FILE_SIZE then
        match env.compress with
        | CompressOutcome.fault msg =>
            (Except.error msg,
             { emptyTrace with extractionInvoked := true, compressionInvoked := true })
        | CompressOutcome.ok csize =>
            if csize > MAX_FILE_SIZE then
              (Except.error "Even after compression, the video is too large.",
               { emptyTrace with extractionInvoked := true, compressionInvoked := true })
            else
              let sr := send_video env.send title
              (Except.ok (),
               { extractionInvoked := true, compressionInvoked := true
               , deliveryInvoked := true
               , deliveredPath := some (temp_dir ++ "/compressed.mp4")
               , deliveredCaption := some sr.sentCaption
               , sendLog := sr.logged, tempDirRemoved := false })
      else
        let sr := send_video env.send title
        (Except.ok (),
         { extractionInvoked := true, compressionInvoked := false
         , deliveryInvoked := true
         , deliveredPath := some path
         , deliveredCaption := some sr.sentCaption
         , sendLog := sr.logged, tempDirRemoved := false })

/-- Semantics of `with tempfile.TemporaryDirectory() as temp_dir:`: whatever
the body does — return normally or raise — the context manager removes the
directory and everything in it on exit, and the body's outcome is preserved. -/
def withTempDir (body : String → Except String Unit × Trace) (temp_dir : String) :
    Except String Unit × Trace :=
  let r := body temp_dir
  (r.1, { r.2 with tempDirRemoved := true })

/-- Embedding of `_process_video` (src/dope247.py lines 79-97). -/
def process_video (env : Env) (temp_dir : String) : Except String Unit × Trace :=
  withTempDir (process_body env) temp_dir

/-- Python's `set.add`: insert the user id if absent (the ActiveDownloadSet is
modelled as a duplicate-free list of user ids). -/
def acquire (s : List Nat) (u : Nat) : List Nat := if u ∈ s then s else s ++ [u]

/-- Python's `set.discard` at src/dope247.py line 74: remove the user id if
present, do nothing otherwise. -/
def release (s : List Nat) (u : Nat) : List Nat := s.erase u

/-- Python's `text.strip()` on code points. -/
def strip (s : String) : String :=
  (((s.toList.dropWhile Char.isWhitespace).reverse.dropWhile
      Char.isWhitespace).reverse).asString

/-- Reply sent when the user already has an in-flight request (line 59). -/
def busyReply : String := "⏳ Please wait, still working on your previous download..."

/-- Reply sent when URL validation fails (line 63). -/
def invalidReply : String := "⚠️ Please send a valid URL from supported sites."

/-- Progress reply sent before extraction starts (line 68). -/
def progressReply : String := "⬇️ Downloading your video, please wait..."

/-- Result of one `handle_message` call: the active-download set afterwards,
the replies sent to the user in order, and the `_process_video` trace. -/
structure HandleResult where
  active : List Nat
  replies : List String
  trace : Trace
  deriving Repr, DecidableEq

/-- Embedding of `handle_message` (src/dope247.py lines 53-74): busy check
against the active set, URL validation of the stripped text, then add the user
id, run `_process_video` inside `try`, turn a propagated exception into an
`❌ Error:` reply, and `finally` discard the user id. -/
def handle_message (active : List Nat) (user_id : Nat) (text : String)
    (env : Env) (temp_dir : String) : HandleResult :=
  if user_id ∈ active then
    { active := active, replies := [busyReply], trace := emptyTrace }
  else if is_valid_url (strip text) = false then
    { active := active, replies := [invalidReply], trace := emptyTrace }
  else
    let acquired := acquire active user_id
    let r := process_video env temp_dir
    let replies :=
      match r.1 with
      | Except.ok _ => [progressReply]
      | Except.error e => [progressReply, "❌ Error: " ++ e]
    { active := release acquired user_id, replies := replies, trace := r.2 }

/-- C2: every `_process_video` run — extraction fault, compression fault,
oversize failure, successful or failed delivery — ends with the scoped
temporary directory (and hence everything inside it) removed, because the
`with tempfile.TemporaryDirectory()` context manager destroys it on every exit
path, exceptional ones included. -/
theorem process_video_tempdir_removed (env : Env) (temp_dir : String) :
    (process_video env temp_dir).2.tempDirRemoved = true := rfl

/-- C9: releasing a user id that is not in the active-download set leaves the
set unchanged — `set.discard` is a no-op on a non-member. -/
theorem release_not_mem (s : List Nat) (u : Nat) (h : u ∉ s) :
    release s u = s :=
  List.erase_of_not_mem h

/-- Witness for C9 at the concrete set `[1, 2]` and absent user id `3`. -/
theorem release_not_mem_witness : release [1, 2] 3 = [1, 2] :=
  release_not_mem [1, 2] 3 (by decide)

/-- C1: the per-user admission gate is single-flight.  While a user id is in
the active-download set, `handle_message` for that user replies only with the
busy message, runs no extraction (empty trace) and leaves the set unchanged;
and when the gate is acquired (user id not yet active), the lifecycle — for
every adapter behaviour, i.e. success, raised fault, or any other exception —
ends with the user id removed from the set, so a subsequent message from that
user passes the busy check. -/
theorem handle_message_single_flight (active : List Nat) (u : Nat)
    (text : String) (env : Env) (temp_dir : String) :
    (u ∈ active →
        handle_message active u text env temp_dir =
          { active := active, replies := [busyReply], trace := emptyTrace }) ∧
    (u ∉ active → u ∉ (handle_message active u text env temp_dir).active) := by
  constructor
  · intro h
    simp [handle_message, h]
  · intro h
    by_cases hv : is_valid_url (strip text) = false
    · simp [handle_message, h, hv]
    · simp only [handle_message, h, hv, if_false, if_neg h, ite_false]
      simp only [acquire, release, if_neg h]
      rw [List.erase_append_right _ h]
      simp [h]

/-- Witness for C1: user 7 is busy-rejected while active, and after a run that
started with user 7 not active the set no longer contains 7. -/
theorem handle_message_single_flight_witness :
    (handle_message [7] 7 "https://vimeo.com/1"
        { extract := ExtractOutcome.ok "T" "/t/a.mp4" 100
        , compress := CompressOutcome.ok 0, send := Except.ok () } "/t" =
      { active := [7], replies := [busyReply], trace := emptyTrace }) ∧
    7 ∉ (handle_message [] 7 "https://vimeo.com/1"
        { extract := ExtractOutcome.ok "T" "/t/a.mp4" 100
        , compress := CompressOutcome.ok 0, send := Except.ok () } "/t").active :=
  ⟨(handle_message_single_flight [7] 7 "https://vimeo.com/1"
        { extract := ExtractOutcome.ok "T" "/t/a.mp4" 100
        , compress := CompressOutcome.ok 0, send := Except.ok () } "/t").1 (by decide),
   (handle_message_single_flight [] 7 "https://vimeo.com/1"
        { extract := ExtractOutcome.ok "T" "/t/a.mp4" 100
        , compress := CompressOutcome.ok 0, send := Except.ok () } "/t").2 (by decide)⟩

/-- C10: the busy check runs before URL validation.  For a user id already in
the active set, any message — valid URL or not — produces exactly the busy
reply (in particular no validation-failure reply), no extraction, and leaves
the active set unchanged. -/
theorem handle_message_busy_before_validation (active : List Nat) (u : Nat)
    (text : String) (env : Env) (temp_dir : String) (h : u ∈ active) :
    (handle_message active u text env temp_dir).replies = [busyReply] ∧
    invalidReply ∉ (handle_message active u text env temp_dir).replies ∧
    (handle_message active u text env temp_dir).trace.extractionInvoked = false ∧
    (handle_message active u text env temp_dir).active = active := by
  refine ⟨?_, ?_, ?_, ?_⟩ <;> simp [handle_message, h, busyReply, invalidReply, emptyTrace]

/-- Witness for C10: user 7 with an in-flight request sends a non-URL message
and is only busy-rejected. -/
theorem handle_message_busy_before_validation_witness :
    (handle_message [7] 7 "not a url"
        { extract := ExtractOutcome.fault "boom"
        , compress := CompressOutcome.ok 0, send := Except.ok () } "/t").replies =
      [busyReply] ∧
    invalidReply ∉ (handle_message [7] 7 "not a url"
        { extract := ExtractOutcome.fault "boom"
        , compress := CompressOutcome.ok 0, send := Except.ok () } "/t").replies ∧
    (handle_message [7] 7 "not a url"
        { extract := ExtractOutcome.fault "boom"
        , compress := CompressOutcome.ok 0, send := Except.ok () } "/t").trace.extractionInvoked
      = false ∧
    (handle_message [7] 7 "not a url"
        { extract := ExtractOutcome.fault "boom"
        , compress := CompressOutcome.ok 0, send := Except.ok () } "/t").active = [7] :=
  handle_message_busy_before_validation [7] 7 "not a url"
    { extract := ExtractOutcome.fault "boom"
    , compress := CompressOutcome.ok 0, send := Except.ok () } "/t" (by decide)

/-- C3: when the extracted file exceeds 50 MiB and the compressed file still
exceeds 50 MiB, the lifecycle ends in the oversize failure (the code raises
`ValueError("Even after compression, the video is too large.")`, the spec's
reason "too large after compression") and the delivery adapter is never
invoked. -/
theorem oversize_after_compression_fails (env : Env) (temp_dir : String)
    (title path : String) (sz csz : Nat)
    (hx : env.extract = ExtractOutcome.ok title path sz)
    (h1 : sz > MAX_FILE_SIZE)
    (hc : env.compress = CompressOutcome.ok csz)
    (h2 : csz > MAX_FILE_SIZE) :
    (process_video env temp_dir).1 =
        Except.error "Even after compression, the video is too large." ∧
    (process_video env temp_dir).2.deliveryInvoked = false := by
  simp [process_video, withTempDir, process_body, hx, hc, h1, h2, emptyTrace]

/-- Witness for C3 with a 50 MiB + 1 byte file that compression leaves at
50 MiB + 1 byte. -/
theorem oversize_after_compression_fails_witness :
    (process_video
        { extract := ExtractOutcome.ok "T" "/t/a.mp4" 52428801
        , compress := CompressOutcome.ok 52428801, send := Except.ok () } "/t").1 =
      Except.error "Even after compression, the video is too large." ∧
    (process_video
        { extract := ExtractOutcome.ok "T" "/t/a.mp4" 52428801
        , compress := CompressOutcome.ok 52428801, send := Except.ok () } "/t").2.deliveryInvoked
      = false :=
  oversize_after_compression_fails
    { extract := ExtractOutcome.ok "T" "/t/a.mp4" 52428801
    , compress := CompressOutcome.ok 52428801, send := Except.ok () } "/t"
    "T" "/t/a.mp4" 52428801 52428801 rfl (by decide) rfl (by decide)

/-- C7: when the extracted file is at most 50 MiB, compression is never
invoked and the file handed to the delivery adapter is the extraction
artifact's own path. -/
theorem small_file_skips_compression (env : Env) (temp_dir : String)
    (title path : String) (sz : Nat)
    (hx : env.extract = ExtractOutcome.ok title path sz)
    (h : sz ≤ MAX_FILE_SIZE) :
    (process_video env temp_dir).2.compressionInvoked = false ∧
    (process_video env temp_dir).2.deliveredPath = some path := by
  have hlt : ¬ sz > MAX_FILE_SIZE := by omega
  simp [process_video, withTempDir, process_body, hx, hlt]

/-- Witness for C7 with a 30 MiB file. -/
theorem small_file_skips_compression_witness :
    (process_video
        { extract := ExtractOutcome.ok "Test Clip" "/t/clip.mp4" 31457280
        , compress := CompressOutcome.ok 0, send := Except.ok () } "/t").2.compressionInvoked
      = false ∧
    (process_video
        { extract := ExtractOutcome.ok "Test Clip" "/t/clip.mp4" 31457280
        , compress := CompressOutcome.ok 0, send := Except.ok () } "/t").2.deliveredPath
      = some "/t/clip.mp4" :=
  small_file_skips_compression
    { extract := ExtractOutcome.ok "Test Clip" "/t/clip.mp4" 31457280
    , compress := CompressOutcome.ok 0, send := Except.ok () } "/t"
    "Test Clip" "/t/clip.mp4" 31457280 rfl (by decide)

theorem captionSlice_of_short (s : String) (h : s.toList.length ≤ 1024) :
    captionSlice s = s := by
  unfold captionSlice
  rw [List.take_of_length_le h]
  rfl

/-- C8: whenever the delivery adapter is handed a caption, that caption is the
video title truncated to its first 1024 code points (Python `caption[:1024]`),
and a title of at most 1024 code points is passed through unchanged. -/
theorem caption_truncated (env : Env) (temp_dir : String)
    (title path : String) (sz : Nat) (c : String)
    (hx : env.extract = ExtractOutcome.ok title path sz)
    (hc : (process_video env temp_dir).2.deliveredCaption = some c) :
    c = captionSlice title ∧ (title.toList.length ≤ 1024 → c = title) := by
  by_cases hsz : sz > MAX_FILE_SIZE
  · cases hcm : env.compress with
    | fault m =>
      simp [process_video, withTempDir, process_body, hx, hsz, hcm, emptyTrace] at hc
    | ok cs =>
      by_cases h2 : cs > MAX_FILE_SIZE
      · simp [process_video, withTempDir, process_body, hx, hsz, hcm, h2, emptyTrace] at hc
      · simp [process_video, withTempDir, process_body, hx, hsz, hcm, h2, send_video] at hc
        refine ⟨hc.symm, fun hlen => ?_⟩
        rw [← hc, captionSlice_of_short title hlen]
  · simp [process_video, withTempDir, process_body, hx, hsz, send_video] at hc
    refine ⟨hc.symm, fun hlen => ?_⟩
    rw [← hc, captionSlice_of_short title hlen]

/-- Witness for C8: a short title is delivered as its own caption. -/
theorem caption_truncated_witness :
    "Test Clip" = captionSlice "Test Clip" ∧
    ("Test Clip".toList.length ≤ 1024 → "Test Clip" = "Test Clip") :=
  caption_truncated
    { extract := ExtractOutcome.ok "Test Clip" "/t/clip.mp4" 100
    , compress := CompressOutcome.ok 0, send := Except.ok () } "/t"
    "Test Clip" "/t/clip.mp4" 100 "Test Clip" rfl (by rfl)

theorem process_video_outcome_ignores_send (env : Env) (temp_dir : String) :
    (process_video env temp_dir).1 =
      (process_video { env with send := Except.ok () } temp_dir).1 := by
  obtain ⟨ex, cm, sd⟩ := env
  cases ex with
  | downloadError m => rfl
  | fault m => rfl
  | ok title path sz =>
    by_cases hsz : sz > MAX_FILE_SIZE
    · cases cm with
      | fault m => simp [process_video, withTempDir, process_body, hsz]
      | ok cs =>
        by_cases h2 : cs > MAX_FILE_SIZE <;>
          simp [process_video, withTempDir, process_body, hsz, h2]
    · simp [process_video, withTempDir, process_body, hsz]

theorem handle_message_run (active : List Nat) (u : Nat) (text : String)
    (env : Env) (temp_dir : String) (h1 : u ∉ active)
    (h2 : is_valid_url (strip text) = true) :
    handle_message active u text env temp_dir =
      { active := release (acquire active u) u
      , replies := match (process_video env temp_dir).1 with
          | Except.ok _ => [progressReply]
          | Except.error e => [progressReply, "❌ Error: " ++ e]
      , trace := (process_video env temp_dir).2 } := by
  unfold handle_message
  rw [if_neg h1, h2]
  simp

/-- C6: a failure of the chat transport during delivery is caught inside
`_send_video` and logged, never re-raised: the caller sees no exception, the
lifecycle outcome of `_process_video` is the same as if the send had
succeeded, and the user-visible replies of `handle_message` are unchanged (in
particular no `❌ Error:` reply is produced by a delivery failure). -/
theorem delivery_failure_swallowed :
    (∀ (transport : Except String Unit) (caption : String),
        (send_video transport caption).propagated = none) ∧
    (∀ (e caption : String),
        (send_video (Except.error e) caption).logged =
          some ("Send failed: " ++ e)) ∧
    (∀ (env : Env) (temp_dir : String),
        (process_video env temp_dir).1 =
          (process_video { env with send := Except.ok () } temp_dir).1) ∧
    (∀ (active : List Nat) (u : Nat) (text : String) (env : Env)
        (temp_dir : String),
        (handle_message active u text env temp_dir).replies =
          (handle_message active u text { env with send := Except.ok () }
              temp_dir).replies) := by
  refine ⟨fun t c => rfl, fun e c => rfl, process_video_outcome_ignores_send, ?_⟩
  intro a u t env td
  by_cases h1 : u ∈ a
  · simp [handle_message, h1]
  · cases hv : is_valid_url (strip t) with
    | false => simp [handle_message, h1, hv]
    | true =>
      rw [handle_message_run a u t env td h1 hv,
          handle_message_run a u t _ td h1 hv,
          ← process_video_outcome_ignores_send env td]

/-- C5 counterexample: the extraction engine raises a download fault whose own
message is "HTTP Error 403: Forbidden", but no reply sent to the user contains
that message — the code's `except yt_dlp.utils.DownloadError` clause discards
the cause and raises a fixed `ValueError` instead, so the underlying cause
message is not surfaced. -/
theorem download_error_cause_not_surfaced :
    ((handle_message [] 1 "https://vimeo.com/1"
        { extract := ExtractOutcome.downloadError "HTTP Error 403: Forbidden"
        , compress := CompressOutcome.ok 0, send := Except.ok () } "/t").replies.any
      (fun r => containsSub "HTTP Error 403: Forbidden".toList r.toList)) = false := by
  decide

/-- C5 amended: when the extraction engine raises a download fault, the
lifecycle ends in failure and the user receives the fixed error reply
"❌ Error: Failed to download. URL might be invalid." regardless of the
fault's own message. -/
theorem download_error_fixed_reply (active : List Nat) (u : Nat)
    (text : String) (env : Env) (temp_dir : String) (msg : String)
    (ha : u ∉ active) (hv : is_valid_url (strip text) = true)
    (hx : env.extract = ExtractOutcome.downloadError msg) :
    (process_video env temp_dir).1 =
        Except.error "Failed to download. URL might be invalid." ∧
    (handle_message active u text env temp_dir).replies =
      [progressReply, "❌ Error: Failed to download. URL might be invalid."] := by
  constructor
  · simp [process_video, withTempDir, process_body, hx]
  · simp [handle_message, ha, hv, process_video, withTempDir, process_body, hx]

/-- Witness for the amended C5 at a concrete valid URL and a download fault
with message "boom". -/
theorem download_error_fixed_reply_witness :
    (process_video
        { extract := ExtractOutcome.downloadError "boom"
        , compress := CompressOutcome.ok 0, send := Except.ok () } "/t").1 =
      Except.error "Failed to download. URL might be invalid." ∧
    (handle_message [] 1 "https://tiktok.com/v/2"
        { extract := ExtractOutcome.downloadError "boom"
        , compress := CompressOutcome.ok 0, send := Except.ok () } "/t").replies =
      [progressReply, "❌ Error: Failed to download. URL might be invalid."] :=
  download_error_fixed_reply [] 1 "https://tiktok.com/v/2"
    { extract := ExtractOutcome.downloadError "boom"
    , compress := CompressOutcome.ok 0, send := Except.ok () } "/t" "boom"
    (by decide) (by decide) rfl

end Dope247
